import Mathlib

/-!
Shallow embedding of the payroll calculator of
`src/HR_root_agent/sub_agents/payroll_agent/agent.py` (class `PayrollAgent`).

Python floats are modelled as rationals (`ℚ`); the claims under study are
stated as exact real-number arithmetic or "within floating-point tolerance",
so the rational model is the faithful idealisation.  Python dictionaries with
a fixed key set are modelled as structures; the dictionary *reads* performed
by `calculate_payroll` and `calculate_employer_taxes` are modelled by lookup
functions that enumerate exactly the keys the source code stores, so that a
read of an absent key (Python `KeyError` / `dict.get` default) is visible in
the model.  The mutable `payroll_history` side effect is not modelled: no
claim mentions it and it does not feed back into any computation.
-/

-- Lean marks the arithmetic of `Rat` irreducible; restore reducibility so
-- concrete runs of the embedded calculator can be settled by `decide`.
attribute [local semireducible] Rat.add Rat.mul Rat.inv Rat.sub

namespace Payroll

/-- One employee input record, the dictionary consumed by
`_calculate_employee_payroll`.  Absent Python keys are represented by the
default value the source supplies to `dict.get`: `""` for strings, `0.0`
for numbers, `{}` for the deductions map, `"DEFAULT"` for the state. -/
structure Employee where
  id : String
  name : String
  /-- annual salary for salaried employees, hourly rate for hourly ones
  (the source stores both in the single `salary` field) -/
  salary : ℚ
  payType : String
  hoursWorked : ℚ
  overtimeHours : ℚ
  state : String
  /-- the `deductions` dict, in iteration (insertion) order -/
  deductions : List (String × ℚ)
  allowances : ℕ
deriving DecidableEq, Repr

/-- The `pay_period` dictionary. -/
structure PayPeriod where
  startDate : String
  endDate : String
  payDate : String
  periodType : String
deriving DecidableEq, Repr

/-- Python's `str.lower()` as used on the `pay_type` field (ASCII case
folding, which covers every pay-type string of interest). -/
def pyLower (s : String) : String := String.mk (s.data.map Char.toLower)

/-- The period-type → periods-per-year mapping that the source repeats as an
identical if/elif chain in four places (gross-pay divisor, annualization
multiplier, federal-tax divisor, state-tax divisor), with the unrecognized
case defaulting to the biweekly 26. -/
def periodsPerYear (pt : String) : ℚ :=
  if pt = "weekly" then 52
  else if pt = "biweekly" then 26
  else if pt = "semimonthly" then 24
  else if pt = "monthly" then 12
  else 26

/-- A progressive tax bracket: `bound = none` models the Python
`float(\x7binf\x7d)` sentinel of the final open-ended bracket. -/
structure Bracket where
  bound : Option ℚ
  rate : ℚ
deriving DecidableEq, Repr

/-- `self.tax_rates["federal"]`. -/
def federalBrackets : List Bracket :=
  [⟨some 10000, 10/100⟩, ⟨some 40000, 12/100⟩, ⟨some 85000, 22/100⟩,
   ⟨some 165000, 24/100⟩, ⟨some 210000, 32/100⟩, ⟨some 530000, 35/100⟩,
   ⟨none, 37/100⟩]

/-- `self.tax_rates["state"]["CA"]`. -/
def caBrackets : List Bracket :=
  [⟨some 10000, 1/100⟩, ⟨some 20000, 2/100⟩, ⟨some 30000, 4/100⟩,
   ⟨some 50000, 6/100⟩, ⟨some 70000, 8/100⟩, ⟨some 100000, 93/1000⟩,
   ⟨none, 103/1000⟩]

/-- `self.tax_rates["state"]["NY"]`. -/
def nyBrackets : List Bracket :=
  [⟨some 12000, 4/100⟩, ⟨some 25000, 45/1000⟩, ⟨some 50000, 525/10000⟩,
   ⟨some 80000, 585/10000⟩, ⟨some 200000, 625/10000⟩, ⟨none, 685/10000⟩]

/-- `self.tax_rates["state"]["TX"]` (no state income tax). -/
def txBrackets : List Bracket := [⟨none, 0⟩]

/-- `self.tax_rates["state"]["FL"]` (no state income tax). -/
def flBrackets : List Bracket := [⟨none, 0⟩]

/-- `self.tax_rates["state"]["DEFAULT"]`. -/
def defaultBrackets : List Bracket :=
  [⟨some 50000, 4/100⟩, ⟨some 100000, 6/100⟩, ⟨none, 8/100⟩]

/-- Membership test of `self.tax_rates["state"]`: `state in self.tax_rates["state"]`
followed by indexing.  Unknown states fall back to the DEFAULT table. -/
def stateBracketTable (s : String) : Option (List Bracket) :=
  if s = "CA" then some caBrackets
  else if s = "NY" then some nyBrackets
  else if s = "TX" then some txBrackets
  else if s = "FL" then some flBrackets
  else if s = "DEFAULT" then some defaultBrackets
  else none

/-- The bracket table actually used for a state: the source replaces a state
absent from the table by `"DEFAULT"` before indexing. -/
def stateBracketsFor (s : String) : List Bracket :=
  match stateBracketTable s with
  | some t => t
  | none => defaultBrackets

/-- `self.tax_rates["social_security"]` (6.2%). -/
def ssRate : ℚ := 62/1000

/-- `self.tax_rates["medicare"]` (1.45%). -/
def medicareRate : ℚ := 145/10000

/-- `self.tax_rates["futa"]` (0.6%). -/
def futaRate : ℚ := 6/1000

/-- `self.tax_rates["sui"].get(state, self.tax_rates["sui"]["DEFAULT"])`. -/
def suiRateFor (st : String) : ℚ :=
  if st = "CA" then 34/1000
  else if st = "NY" then 36/1000
  else if st = "TX" then 27/1000
  else if st = "FL" then 29/1000
  else if st = "DEFAULT" then 3/100
  else 3/100

/-- One entry of the static `self.deduction_types` catalog:
`isPercentage` models `type == "percentage"` (vs `"fixed"`). -/
structure DeductionInfo where
  isPercentage : Bool
  preTax : Bool
  descr : String
deriving DecidableEq, Repr

/-- The static deduction catalog `self._load_deduction_types()`, as the
membership-plus-index access the source performs on it. -/
def deductionTypes (name : String) : Option DeductionInfo :=
  if name = "401k" then some ⟨true, true, "401(k) Retirement Plan"⟩
  else if name = "health_insurance" then some ⟨false, true, "Health Insurance Premium"⟩
  else if name = "dental_insurance" then some ⟨false, true, "Dental Insurance Premium"⟩
  else if name = "vision_insurance" then some ⟨false, true, "Vision Insurance Premium"⟩
  else if name = "fsa" then some ⟨false, true, "Flexible Spending Account"⟩
  else if name = "life_insurance" then some ⟨false, false, "Life Insurance Premium"⟩
  else if name = "charity" then some ⟨true, false, "Charitable Contribution"⟩
  else if name = "garnishment" then some ⟨false, false, "Wage Garnishment"⟩
  else none

/-- One line of the `deductions_breakdown` list. -/
structure DeductionLine where
  name : String
  amount : ℚ
  preTax : Bool
deriving DecidableEq, Repr

/-- Accumulator of the deduction loop: running pre-tax and post-tax totals
plus the breakdown list. -/
structure DedState where
  preTaxTotal : ℚ
  postTaxTotal : ℚ
  breakdown : List DeductionLine
deriving DecidableEq, Repr

/-- One iteration of the loop
`for deduction_name, deduction_value in employee.get("deductions", \x7b\x7d).items()`:
an entry absent from the catalog is skipped; a percentage entry contributes
`gross_pay * value`, a fixed one contributes `value`, routed to the pre- or
post-tax total by the kind's flag and appended to the breakdown. -/
def processDeduction (grossPay : ℚ) (st : DedState) (entry : String × ℚ) : DedState :=
  match deductionTypes entry.1 with
  | none => st
  | some info =>
    let amount := if info.isPercentage then grossPay * entry.2 else entry.2
    { preTaxTotal := if info.preTax then st.preTaxTotal + amount else st.preTaxTotal
      postTaxTotal := if info.preTax then st.postTaxTotal else st.postTaxTotal + amount
      breakdown := st.breakdown ++ [⟨info.descr, amount, info.preTax⟩] }

/-- The whole deduction loop, folding over the map in iteration order. -/
def processDeductions (grossPay : ℚ) (deds : List (String × ℚ)) : DedState :=
  deds.foldl (processDeduction grossPay) ⟨0, 0, []⟩

/-- Gross pay: the salary/hourly branch of `_calculate_employee_payroll`.
The source branches on `employee.get("pay_type", "").lower() == "salary"`;
the hourly branch pays `rate * hours + rate * 1.5 * overtime`. -/
def grossPayOf (e : Employee) (p : PayPeriod) : ℚ :=
  if pyLower e.payType = "salary" then
    e.salary / periodsPerYear p.periodType
  else
    e.salary * e.hoursWorked + e.salary * (3/2) * e.overtimeHours

/-- The marginal contribution of one bracket when the loop body's guard
`taxable_income > previous_bracket` fires:
`(min(taxable_income, bracket_limit) - previous_bracket) * rate`,
where an unbounded bracket takes `min(taxable, inf) = taxable`. -/
def stepTerm (taxable prev : ℚ) (bound : Option ℚ) (rate : ℚ) : ℚ :=
  if prev < taxable then
    ((match bound with
      | none => taxable
      | some lim => min taxable lim) - prev) * rate
  else 0

/-- The bracket walk of `_calculate_progressive_tax`: accumulate the
per-bracket term, advance `previous_bracket` to the bracket's limit, and
break as soon as `taxable_income <= bracket_limit` (always, for the
unbounded final bracket). -/
def taxLoop (taxable : ℚ) : ℚ → List Bracket → ℚ
  | _, [] => 0
  | prev, b :: rest =>
    match b.bound with
    | none => stepTerm taxable prev b.bound b.rate
    | some lim =>
      if taxable ≤ lim then stepTerm taxable prev b.bound b.rate
      else stepTerm taxable prev b.bound b.rate + taxLoop taxable lim rest

/-- `_calculate_progressive_tax`: subtract the simplified allowance-based
standard deduction (clamped at zero) and walk the brackets from
`previous_bracket = 0`. -/
def calculateProgressiveTax (income : ℚ) (brackets : List Bracket)
    (allowances : ℕ) : ℚ :=
  taxLoop (max 0 (income - (allowances : ℚ) * 4050)) 0 brackets

/-- Per-period taxable income: `gross_pay - pre_tax_deductions`. -/
def taxableIncomeOf (e : Employee) (p : PayPeriod) : ℚ :=
  grossPayOf e p - (processDeductions (grossPayOf e p) e.deductions).preTaxTotal

/-- Annualized taxable income, using the same period-type chain. -/
def annualizedIncomeOf (e : Employee) (p : PayPeriod) : ℚ :=
  taxableIncomeOf e p * periodsPerYear p.periodType

/-- Per-period federal income tax: annual progressive tax divided back by
the periods-per-year chain. -/
def federalTaxOf (e : Employee) (p : PayPeriod) : ℚ :=
  calculateProgressiveTax (annualizedIncomeOf e p) federalBrackets e.allowances
    / periodsPerYear p.periodType

/-- Per-period state income tax, on the employee's state table (DEFAULT
fallback), divided back by the periods-per-year chain. -/
def stateTaxOf (e : Employee) (p : PayPeriod) : ℚ :=
  calculateProgressiveTax (annualizedIncomeOf e p) (stateBracketsFor e.state)
    e.allowances / periodsPerYear p.periodType

/-- Social Security withholding:
`min(taxable_income * ss_rate, (147000 / 26) * ss_rate)` — the cap divisor
is the literal 26 in the source, independent of the period type. -/
def socialSecurityTaxOf (e : Employee) (p : PayPeriod) : ℚ :=
  min (taxableIncomeOf e p * ssRate) ((147000 / 26) * ssRate)

/-- The additional-Medicare branch: `(annualized_income - 200000) * 0.009 / 26`
when `annualized_income > 200000`, the divisor again the literal 26. -/
def medicareSurtaxOf (e : Employee) (p : PayPeriod) : ℚ :=
  if 200000 < annualizedIncomeOf e p then
    (annualizedIncomeOf e p - 200000) * (9/1000) / 26
  else 0

/-- Medicare withholding: `taxable_income * medicare_rate` plus the
high-earner surtax branch. -/
def medicareTaxOf (e : Employee) (p : PayPeriod) : ℚ :=
  taxableIncomeOf e p * medicareRate + medicareSurtaxOf e p

/-- `total_taxes = federal + state + social_security + medicare`. -/
def totalTaxesOf (e : Employee) (p : PayPeriod) : ℚ :=
  federalTaxOf e p + stateTaxOf e p + socialSecurityTaxOf e p + medicareTaxOf e p

/-- `net_pay = gross_pay - pre_tax_deductions - total_taxes - post_tax_deductions`. -/
def netPayOf (e : Employee) (p : PayPeriod) : ℚ :=
  grossPayOf e p - (processDeductions (grossPayOf e p) e.deductions).preTaxTotal
    - totalTaxesOf e p
    - (processDeductions (grossPayOf e p) e.deductions).postTaxTotal

/-- The extra keys added to the stub of a non-salaried employee:
`(regular_hours, overtime_hours, hourly_rate, regular_pay, overtime_pay)`. -/
structure HourlyDetails where
  regularHours : ℚ
  overtimeHours : ℚ
  hourlyRate : ℚ
  regularPay : ℚ
  overtimePay : ℚ
deriving DecidableEq, Repr

/-- The `pay_stub` dictionary built by `_calculate_employee_payroll`.  The
four-entry `tax_breakdown` list is carried as its four amounts
(`federalTax`, `stateTax`, `socialSecurityTax`, `medicareTax`).  Note the
dictionary holds `pre_tax_deductions` and `post_tax_deductions` but **no**
`total_deductions` key. -/
structure PayStub where
  employeeId : String
  employeeName : String
  payPeriod : PayPeriod
  grossPay : ℚ
  preTaxDeductions : ℚ
  taxableIncome : ℚ
  totalTaxes : ℚ
  postTaxDeductions : ℚ
  netPay : ℚ
  federalTax : ℚ
  stateTax : ℚ
  socialSecurityTax : ℚ
  medicareTax : ℚ
  deductionsBreakdown : List DeductionLine
  hourlyDetails : Option HourlyDetails
deriving DecidableEq, Repr

/-- `_calculate_employee_payroll`: assemble the pay stub. -/
def calculateEmployeePayroll (e : Employee) (p : PayPeriod) : PayStub :=
  { employeeId := e.id
    employeeName := e.name
    payPeriod := p
    grossPay := grossPayOf e p
    preTaxDeductions := (processDeductions (grossPayOf e p) e.deductions).preTaxTotal
    taxableIncome := taxableIncomeOf e p
    totalTaxes := totalTaxesOf e p
    postTaxDeductions := (processDeductions (grossPayOf e p) e.deductions).postTaxTotal
    netPay := netPayOf e p
    federalTax := federalTaxOf e p
    stateTax := stateTaxOf e p
    socialSecurityTax := socialSecurityTaxOf e p
    medicareTax := medicareTaxOf e p
    deductionsBreakdown := (processDeductions (grossPayOf e p) e.deductions).breakdown
    hourlyDetails :=
      if pyLower e.payType = "salary" then none
      else some ⟨e.hoursWorked, e.overtimeHours, e.salary,
                 e.salary * e.hoursWorked, e.salary * (3/2) * e.overtimeHours⟩ }

/-- The numeric keys of the `pay_stub` dictionary, as read by
`calculate_payroll` and `calculate_employer_taxes`.  `none` is a key the
dictionary does not hold (a bare `[...]` access on it raises `KeyError`,
a `.get` access returns the supplied default). -/
def stubLookup (s : PayStub) (key : String) : Option ℚ :=
  if key = "gross_pay" then some s.grossPay
  else if key = "pre_tax_deductions" then some s.preTaxDeductions
  else if key = "taxable_income" then some s.taxableIncome
  else if key = "total_taxes" then some s.totalTaxes
  else if key = "post_tax_deductions" then some s.postTaxDeductions
  else if key = "net_pay" then some s.netPay
  else if key = "regular_hours" then s.hourlyDetails.map HourlyDetails.regularHours
  else if key = "overtime_hours" then s.hourlyDetails.map HourlyDetails.overtimeHours
  else if key = "hourly_rate" then s.hourlyDetails.map HourlyDetails.hourlyRate
  else if key = "regular_pay" then s.hourlyDetails.map HourlyDetails.regularPay
  else if key = "overtime_pay" then s.hourlyDetails.map HourlyDetails.overtimePay
  else none

/-- The string-valued keys of the `pay_stub` dictionary.  In particular
`employee_state` is not among them: the stub never stores the state. -/
def stubStrLookup (s : PayStub) (key : String) : Option String :=
  if key = "employee_id" then some s.employeeId
  else if key = "employee_name" then some s.employeeName
  else none

/-- The `payroll_results` dictionary of `calculate_payroll`. -/
structure PayrollRunResult where
  payPeriod : PayPeriod
  totalGross : ℚ
  totalNet : ℚ
  totalTaxes : ℚ
  totalDeductions : ℚ
  employeePayments : List PayStub
deriving DecidableEq, Repr

/-- One iteration of the `for employee in employees` loop of
`calculate_payroll`: compute the employee's stub, append it, then read the
four totals out of the stub dictionary by bare indexing — a missing key
raises `KeyError`, modelled as `Except.error`.  The reads happen in source
order: `gross_pay`, `net_pay`, `total_taxes`, `total_deductions`. -/
def calculatePayrollStep (p : PayPeriod)
    (acc : Except String PayrollRunResult) (e : Employee) :
    Except String PayrollRunResult :=
  match acc with
  | .error s => .error s
  | .ok res =>
    let stub := calculateEmployeePayroll e p
    let res := { res with employeePayments := res.employeePayments ++ [stub] }
    match stubLookup stub "gross_pay" with
    | none => .error "KeyError: gross_pay"
    | some g =>
      match stubLookup stub "net_pay" with
      | none => .error "KeyError: net_pay"
      | some n =>
        match stubLookup stub "total_taxes" with
        | none => .error "KeyError: total_taxes"
        | some t =>
          match stubLookup stub "total_deductions" with
          | none => .error "KeyError: total_deductions"
          | some d =>
            .ok { res with
                  totalGross := res.totalGross + g
                  totalNet := res.totalNet + n
                  totalTaxes := res.totalTaxes + t
                  totalDeductions := res.totalDeductions + d }

/-- `calculate_payroll`: start from the zeroed totals and fold the
per-employee loop over the roster.  (The append to `self.payroll_history`
is a side effect on state no claim depends on and is not modelled.) -/
def calculatePayroll (employees : List Employee) (p : PayPeriod) :
    Except String PayrollRunResult :=
  employees.foldl (calculatePayrollStep p) (.ok ⟨p, 0, 0, 0, 0, []⟩)

/-- The `employer_taxes` accumulator of `calculate_employer_taxes`
(the `total` field is filled in after the loop). -/
structure EmployerTaxes where
  socialSecurity : ℚ
  medicare : ℚ
  futa : ℚ
  sui : ℚ
  total : ℚ
deriving DecidableEq, Repr

/-- One iteration of the `for payment in payroll_data.get("employee_payments", [])`
loop: `taxable_income` is read with default `0.0`, `employee_state` with
default `"DEFAULT"` (the stub holds no such key), then the employer-side
Social Security (same 147000/26 cap), Medicare match, FUTA and SUI
(both capped at `7000 / 26`) are accumulated. -/
def employerTaxesStep (acc : EmployerTaxes) (payment : PayStub) : EmployerTaxes :=
  let taxableIncome := (stubLookup payment "taxable_income").getD 0
  let state := (stubStrLookup payment "employee_state").getD "DEFAULT"
  let socialSecurity := min (taxableIncome * ssRate) ((147000 / 26) * ssRate)
  let medicare := taxableIncome * medicareRate
  let futa := min taxableIncome (7000 / 26) * futaRate
  let sui := min taxableIncome (7000 / 26) * suiRateFor state
  { acc with
    socialSecurity := acc.socialSecurity + socialSecurity
    medicare := acc.medicare + medicare
    futa := acc.futa + futa
    sui := acc.sui + sui }

/-- `calculate_employer_taxes`: fold the loop over the run result's
`employee_payments`, then total the four components. -/
def calculateEmployerTaxes (payrollData : PayrollRunResult) : EmployerTaxes :=
  let acc := payrollData.employeePayments.foldl employerTaxesStep ⟨0, 0, 0, 0, 0⟩
  { acc with total := acc.socialSecurity + acc.medicare + acc.futa + acc.sui }

/-- Well-formedness of a bracket table relative to a starting lower bound:
every rate is non-negative and the finite upper bounds ascend from `prev`.
(Brackets after an unbounded one are unreachable: the walk always breaks
there, so they are unconstrained.)  All six static tables of the program
satisfy `wfB 0`. -/
def wfB : ℚ → List Bracket → Bool
  | _, [] => true
  | prev, b :: rest =>
    decide (0 ≤ b.rate) &&
      match b.bound with
      | none => true
      | some lim => decide (prev ≤ lim) && wfB lim rest

/-- Ascending upper bounds from `prev`, with the unbounded bracket (if any)
in final position — the spec's shape for a bracket table ("ordered sequence
..., strictly increasing upper_bound, last entry's bound = +infinity"). -/
def ascB : ℚ → List Bracket → Bool
  | _, [] => true
  | prev, b :: rest =>
    match b.bound with
    | none => rest.isEmpty
    | some lim => decide (prev ≤ lim) && ascB lim rest

/-- Modelled from the spec: the bracket walk that "always ran to
completion" — identical per-bracket terms but no early exit.  Once the walk
has passed an unbounded bracket, `previous_bracket` is `+infinity`
(`prev = none`) and the guard `taxable > previous_bracket` can never fire,
so such a step contributes zero. -/
def fullTaxLoop (taxable : ℚ) : Option ℚ → List Bracket → ℚ
  | _, [] => 0
  | prevO, b :: rest =>
    (match prevO with
     | none => 0
     | some prev => stepTerm taxable prev b.bound b.rate) +
      fullTaxLoop taxable b.bound rest

/-- Modelled from the spec: `_calculate_progressive_tax` with the
early-exit `break` removed, the comparison variant for claim C8. -/
def calculateProgressiveTaxFullScan (income : ℚ) (brackets : List Bracket)
    (allowances : ℕ) : ℚ :=
  fullTaxLoop (max 0 (income - (allowances : ℚ) * 4050)) (some 0) brackets

/-- The six static bracket tables the program ships. -/
def programBracketTables : List (List Bracket) :=
  [federalBrackets, caBrackets, nyBrackets, txBrackets, flBrackets,
   defaultBrackets]

/-! Concrete sample inputs used by counterexamples and witnesses. -/

/-- A biweekly pay period. -/
def biweeklyPeriod : PayPeriod :=
  ⟨"2024-01-01", "2024-01-14", "2024-01-19", "biweekly"⟩

/-- A weekly pay period. -/
def weeklyPeriod : PayPeriod :=
  ⟨"2024-01-01", "2024-01-07", "2024-01-12", "weekly"⟩

/-- Salaried employee at 78000/yr (the spec's divisor-correctness case). -/
def salaried78k : Employee :=
  ⟨"EMP-1", "Alice Doe", 78000, "salary", 0, 0, "CA", [], 0⟩

/-- Hourly employee at 20/hr, 80 regular + 5 overtime hours. -/
def hourly20 : Employee :=
  ⟨"EMP-2", "Bob Roe", 20, "hourly", 80, 5, "NY", [], 0⟩

/-- Salaried employee whose weekly taxable income (100000) far exceeds
every per-period Social-Security cap. -/
def highEarnerSS : Employee :=
  ⟨"EMP-3", "Carol Poe", 5200000, "salary", 0, 0, "DEFAULT", [], 0⟩

/-- Salaried employee at 200000/yr, above the biweekly SS cap. -/
def aboveCapBiweekly : Employee :=
  ⟨"EMP-4", "Dan Moe", 200000, "salary", 0, 0, "CA", [], 0⟩

/-- Salaried employee at 520000/yr: annualized income 520000 exceeds the
200000 additional-Medicare threshold. -/
def highEarnerMedicare : Employee :=
  ⟨"EMP-5", "Eve Loe", 520000, "salary", 0, 0, "DEFAULT", [], 0⟩

/-- Employee whose fixed pre-tax deduction (200) exceeds the biweekly gross
pay (2600 / 26 = 100), driving taxable income to -100. -/
def overDeducted : Employee :=
  ⟨"EMP-6", "Fay Joe", 2600, "salary", 0, 0, "DEFAULT",
   [("health_insurance", 200)], 0⟩

/-- Employee whose deductions map holds a kind absent from the catalog. -/
def unknownDeductionEmp : Employee :=
  ⟨"EMP-7", "Gil Koe", 78000, "salary", 0, 0, "CA",
   [("401k", 5/100), ("pet_insurance", 50)], 0⟩

/-! Helper lemmas shared by the claim theorems. -/

theorem stepTerm_nonneg {taxable prev : ℚ} {bound : Option ℚ} {rate : ℚ}
    (hr : 0 ≤ rate) (hb : ∀ lim, bound = some lim → prev ≤ lim) :
    0 ≤ stepTerm taxable prev bound rate := by
  unfold stepTerm
  split
  · rename_i hlt
    apply mul_nonneg _ hr
    cases bound with
    | none => linarith
    | some lim =>
      have hpl : prev ≤ min taxable lim := le_min (le_of_lt hlt) (hb lim rfl)
      simpa using hpl
  · exact le_refl 0

theorem stepTerm_mono {x y prev : ℚ} {bound : Option ℚ} {rate : ℚ}
    (hr : 0 ≤ rate) (hb : ∀ lim, bound = some lim → prev ≤ lim)
    (hxy : x ≤ y) :
    stepTerm x prev bound rate ≤ stepTerm y prev bound rate := by
  by_cases hx : prev < x
  · unfold stepTerm
    rw [if_pos hx, if_pos (lt_of_lt_of_le hx hxy)]
    apply mul_le_mul_of_nonneg_right _ hr
    cases bound with
    | none => simpa using hxy
    | some lim =>
      have hmin : min x lim ≤ min y lim := min_le_min hxy (le_refl lim)
      simpa using hmin
  · have hzero : stepTerm x prev bound rate = 0 := by
      unfold stepTerm; rw [if_neg hx]
    rw [hzero]
    exact stepTerm_nonneg hr hb

theorem taxLoop_nonneg :
    ∀ (bs : List Bracket) (prev taxable : ℚ),
      wfB prev bs = true → 0 ≤ taxLoop taxable prev bs := by
  intro bs
  induction bs with
  | nil => intro prev taxable _; simp [taxLoop]
  | cons b rest ih =>
    intro prev taxable hwf
    obtain ⟨bound, rate⟩ := b
    cases bound with
    | none =>
      simp only [wfB, Bool.and_eq_true, decide_eq_true_eq] at hwf
      simp only [taxLoop]
      exact stepTerm_nonneg hwf.1 (fun l hl => by cases hl)
    | some lim =>
      simp only [wfB, Bool.and_eq_true, decide_eq_true_eq] at hwf
      obtain ⟨hr, hpl, hrest⟩ := hwf
      have hbb : ∀ l, (some lim : Option ℚ) = some l → prev ≤ l := by
        intro l hl
        rw [Option.some.injEq] at hl
        exact hl ▸ hpl
      simp only [taxLoop]
      split
      · exact stepTerm_nonneg hr hbb
      · exact add_nonneg (stepTerm_nonneg hr hbb) (ih lim taxable hrest)

theorem taxLoop_mono :
    ∀ (bs : List Bracket) (prev x y : ℚ),
      wfB prev bs = true → x ≤ y →
      taxLoop x prev bs ≤ taxLoop y prev bs := by
  intro bs
  induction bs with
  | nil => intro prev x y _ _; simp [taxLoop]
  | cons b rest ih =>
    intro prev x y hwf hxy
    obtain ⟨bound, rate⟩ := b
    cases bound with
    | none =>
      simp only [wfB, Bool.and_eq_true, decide_eq_true_eq] at hwf
      simp only [taxLoop]
      exact stepTerm_mono hwf.1 (fun l hl => by cases hl) hxy
    | some lim =>
      simp only [wfB, Bool.and_eq_true, decide_eq_true_eq] at hwf
      obtain ⟨hr, hpl, hrest⟩ := hwf
      have hbb : ∀ l, (some lim : Option ℚ) = some l → prev ≤ l := by
        intro l hl
        rw [Option.some.injEq] at hl
        exact hl ▸ hpl
      simp only [taxLoop]
      by_cases hy : y ≤ lim
      · rw [if_pos (le_trans hxy hy), if_pos hy]
        exact stepTerm_mono hr hbb hxy
      · rw [if_neg hy]
        by_cases hx : x ≤ lim
        · rw [if_pos hx]
          calc stepTerm x prev (some lim) rate
              ≤ stepTerm y prev (some lim) rate := stepTerm_mono hr hbb hxy
            _ ≤ stepTerm y prev (some lim) rate + taxLoop y lim rest :=
                le_add_of_nonneg_right (taxLoop_nonneg rest lim y hrest)
        · rw [if_neg hx]
          exact add_le_add (stepTerm_mono hr hbb hxy) (ih lim x y hrest hxy)

theorem fullTaxLoop_of_le :
    ∀ (bs : List Bracket) (prev taxable : ℚ),
      taxable ≤ prev → ascB prev bs = true →
      fullTaxLoop taxable (some prev) bs = 0 := by
  intro bs
  induction bs with
  | nil => intro prev taxable _ _; simp [fullTaxLoop]
  | cons b rest ih =>
    intro prev taxable hle hasc
    obtain ⟨bound, rate⟩ := b
    have hstep : stepTerm taxable prev bound rate = 0 := by
      unfold stepTerm; rw [if_neg (not_lt.mpr hle)]
    cases bound with
    | none =>
      simp only [ascB] at hasc
      rw [List.isEmpty_iff] at hasc
      subst hasc
      simp [fullTaxLoop, hstep]
    | some lim =>
      simp only [ascB, Bool.and_eq_true, decide_eq_true_eq] at hasc
      simp only [fullTaxLoop, hstep,
        ih lim taxable (le_trans hle hasc.1) hasc.2]
      ring

theorem taxLoop_eq_fullTaxLoop :
    ∀ (bs : List Bracket) (prev taxable : ℚ),
      ascB prev bs = true →
      taxLoop taxable prev bs = fullTaxLoop taxable (some prev) bs := by
  intro bs
  induction bs with
  | nil => intro prev taxable _; simp [taxLoop, fullTaxLoop]
  | cons b rest ih =>
    intro prev taxable hasc
    obtain ⟨bound, rate⟩ := b
    cases bound with
    | none =>
      simp only [ascB] at hasc
      rw [List.isEmpty_iff] at hasc
      subst hasc
      simp [taxLoop, fullTaxLoop]
    | some lim =>
      simp only [ascB, Bool.and_eq_true, decide_eq_true_eq] at hasc
      simp only [taxLoop, fullTaxLoop]
      by_cases ht : taxable ≤ lim
      · rw [if_pos ht, fullTaxLoop_of_le rest lim taxable ht hasc.2]
        ring
      · rw [if_neg ht, ih lim taxable hasc.2]

theorem periodsPerYear_pos (pt : String) : 0 < periodsPerYear pt := by
  unfold periodsPerYear
  split_ifs <;> norm_num

theorem stateBracketsFor_mem_program (s : String) :
    stateBracketsFor s ∈ programBracketTables := by
  unfold stateBracketsFor stateBracketTable
  split_ifs <;> simp [programBracketTables]

theorem wfB_program :
    ∀ bs ∈ programBracketTables, wfB 0 bs = true := by
  intro bs hbs
  fin_cases hbs <;> decide

theorem medicareSurtaxOf_nonneg (e : Employee) (p : PayPeriod) :
    0 ≤ medicareSurtaxOf e p := by
  unfold medicareSurtaxOf
  split
  · rename_i h
    apply div_nonneg _ (by norm_num)
    apply mul_nonneg _ (by norm_num)
    linarith
  · exact le_refl 0

theorem stubLookup_taxable_income (s : PayStub) :
    stubLookup s "taxable_income" = some s.taxableIncome := rfl

theorem stubStrLookup_employee_state (s : PayStub) :
    stubStrLookup s "employee_state" = none := rfl

theorem processDeductions_skip (g : ℚ) (k : String) (v : ℚ)
    (hk : deductionTypes k = none) (l1 l2 : List (String × ℚ)) :
    processDeductions g (l1 ++ (k, v) :: l2) = processDeductions g (l1 ++ l2) := by
  unfold processDeductions
  rw [List.foldl_append, List.foldl_append, List.foldl_cons]
  have hid : processDeduction g (List.foldl (processDeduction g) ⟨0, 0, []⟩ l1) (k, v)
      = List.foldl (processDeduction g) ⟨0, 0, []⟩ l1 := by
    unfold processDeduction
    simp [hk]
  rw [hid]

theorem calcEmp_deductions_skip
    (i n : String) (sal : ℚ) (pt : String) (hw ot : ℚ) (st : String)
    (alw : ℕ) (k : String) (v : ℚ) (l1 l2 : List (String × ℚ))
    (p : PayPeriod) (hk : deductionTypes k = none) :
    calculateEmployeePayroll ⟨i, n, sal, pt, hw, ot, st, l1 ++ (k, v) :: l2, alw⟩ p
      = calculateEmployeePayroll ⟨i, n, sal, pt, hw, ot, st, l1 ++ l2, alw⟩ p := by
  have hpd : ∀ g, processDeductions g (l1 ++ (k, v) :: l2) = processDeductions g (l1 ++ l2) :=
    fun g => processDeductions_skip g k v hk l1 l2
  simp only [calculateEmployeePayroll, taxableIncomeOf, annualizedIncomeOf,
    federalTaxOf, stateTaxOf, socialSecurityTaxOf, medicareTaxOf,
    medicareSurtaxOf, totalTaxesOf, netPayOf, grossPayOf]
  rw [hpd]

theorem employerFold_sui (l : List PayStub) (acc : EmployerTaxes) :
    (l.foldl employerTaxesStep acc).sui =
      acc.sui +
        (l.map (fun s => min s.taxableIncome (7000 / 26) * suiRateFor "DEFAULT")).sum := by
  induction l generalizing acc with
  | nil => simp
  | cons s rest ih =>
    rw [List.foldl_cons, ih]
    have hstep : (employerTaxesStep acc s).sui =
        acc.sui + min s.taxableIncome (7000 / 26) * suiRateFor "DEFAULT" := rfl
    rw [hstep, List.map_cons, List.sum_cons]
    ring

theorem employerFold_futa (l : List PayStub) (acc : EmployerTaxes) :
    (l.foldl employerTaxesStep acc).futa =
      acc.futa + (l.map (fun s => min s.taxableIncome (7000 / 26) * futaRate)).sum := by
  induction l generalizing acc with
  | nil => simp
  | cons s rest ih =>
    rw [List.foldl_cons, ih]
    have hstep : (employerTaxesStep acc s).futa =
        acc.futa + min s.taxableIncome (7000 / 26) * futaRate := rfl
    rw [hstep, List.map_cons, List.sum_cons]
    ring

/-! The claim theorems. -/

/-- C1: the claim states that `calculate_payroll` returns normally for every
well-formed non-empty roster, with one stub per record and summed totals.
The code instead raises `KeyError` on the very first employee: it reads
`employee_result["total_deductions"]`, a key the pay-stub dictionary built
by `_calculate_employee_payroll` never contains.  This theorem evaluates
the code at every non-empty roster: the run always aborts with that
`KeyError` (so in particular on the spec's two-employee biweekly scenario). -/
theorem C1_calculate_payroll_always_raises :
    ∀ (e : Employee) (es : List Employee) (p : PayPeriod),
      calculatePayroll (e :: es) p = .error "KeyError: total_deductions" := by
  intro e es p
  have h1 : calculatePayrollStep p (.ok ⟨p, 0, 0, 0, 0, []⟩) e
      = .error "KeyError: total_deductions" := rfl
  show List.foldl (calculatePayrollStep p) _ (e :: es) = _
  rw [List.foldl_cons, h1]
  induction es with
  | nil => rfl
  | cons a as ih =>
    rw [List.foldl_cons]
    exact ih

/-- C2 counterexample: for the weekly period the claim predicts a
Social-Security cap of `147000 / 52 * ss_rate`, but on a salaried employee
at 5200000/yr (per-period taxable income 100000, far above every cap) the
code withholds `147000 / 26 * ss_rate`, refuting the claimed formula. -/
theorem C2_counterexample :
    (147000 / 52 : ℚ) <
        (calculateEmployeePayroll highEarnerSS weeklyPeriod).taxableIncome ∧
      (calculateEmployeePayroll highEarnerSS weeklyPeriod).socialSecurityTax ≠
        min ((calculateEmployeePayroll highEarnerSS weeklyPeriod).taxableIncome * ssRate)
          ((147000 / 52) * ssRate) := by decide

/-- C2 (amended): the Social-Security withholding equals
`min(taxable_income_per_period * ss_rate, (147000 / 26) * ss_rate)` — the
per-period wage cap always uses the biweekly divisor 26, whatever the
period type (so the claim's formula holds for biweekly periods only); an
employee whose per-period taxable income reaches `147000 / 26` is withheld
exactly `(147000 / 26) * ss_rate`. -/
theorem C2_ss_cap_fixed_biweekly_divisor (e : Employee) (p : PayPeriod) :
    (calculateEmployeePayroll e p).socialSecurityTax =
      min ((calculateEmployeePayroll e p).taxableIncome * ssRate)
        ((147000 / 26) * ssRate) ∧
    ((147000 / 26 : ℚ) ≤ (calculateEmployeePayroll e p).taxableIncome →
      (calculateEmployeePayroll e p).socialSecurityTax = (147000 / 26) * ssRate) := by
  constructor
  · rfl
  · intro h
    have h2 : (147000 / 26 : ℚ) ≤ taxableIncomeOf e p := h
    show socialSecurityTaxOf e p = _
    unfold socialSecurityTaxOf
    exact min_eq_right (mul_le_mul_of_nonneg_right h2 (by norm_num [ssRate]))

/-- C2 witness: a salaried employee at 200000/yr on a biweekly period is
above the per-period cap and is withheld exactly the capped amount. -/
theorem C2_ss_cap_fixed_biweekly_divisor_witness :
    (calculateEmployeePayroll aboveCapBiweekly biweeklyPeriod).socialSecurityTax
      = (147000 / 26) * ssRate :=
  (C2_ss_cap_fixed_biweekly_divisor aboveCapBiweekly biweeklyPeriod).2 (by decide)

/-- C3 counterexample: for a weekly period the claim predicts the
additional-Medicare surtax is divided by 52, but on a salaried employee at
520000/yr (annualized income 520000 > 200000) the code divides the surtax
by the literal 26, refuting the claimed formula. -/
theorem C3_counterexample :
    200000 < annualizedIncomeOf highEarnerMedicare weeklyPeriod ∧
      (calculateEmployeePayroll highEarnerMedicare weeklyPeriod).medicareTax ≠
        (calculateEmployeePayroll highEarnerMedicare weeklyPeriod).taxableIncome
            * medicareRate +
          (annualizedIncomeOf highEarnerMedicare weeklyPeriod - 200000) * (9/1000) /
            periodsPerYear weeklyPeriod.periodType := by decide

/-- C3 (amended): Medicare withholding is
`taxable_income_per_period * medicare_rate` plus a surtax that is zero
when annualized income is at most 200000 and
`(annualized_income - 200000) * 0.009 / 26` above it — the divisor is the
fixed biweekly 26, not the period's `periods_per_year` (so the claim's
formula holds for biweekly periods only); the surtax is applied only on
the excess and is never negative. -/
theorem C3_medicare_surtax_fixed_divisor (e : Employee) (p : PayPeriod) :
    (calculateEmployeePayroll e p).medicareTax =
      (calculateEmployeePayroll e p).taxableIncome * medicareRate +
        medicareSurtaxOf e p ∧
    0 ≤ medicareSurtaxOf e p ∧
    (annualizedIncomeOf e p ≤ 200000 → medicareSurtaxOf e p = 0) ∧
    (200000 < annualizedIncomeOf e p →
      medicareSurtaxOf e p = (annualizedIncomeOf e p - 200000) * (9/1000) / 26) := by
  refine ⟨rfl, medicareSurtaxOf_nonneg e p, ?_, ?_⟩
  · intro h
    unfold medicareSurtaxOf
    rw [if_neg (not_lt.mpr h)]
  · intro h
    unfold medicareSurtaxOf
    rw [if_pos h]

/-- C3 witness: the high-earner surtax branch evaluated on the concrete
520000/yr weekly employee. -/
theorem C3_medicare_surtax_fixed_divisor_witness :
    medicareSurtaxOf highEarnerMedicare weeklyPeriod =
      (annualizedIncomeOf highEarnerMedicare weeklyPeriod - 200000) * (9/1000) / 26 :=
  (C3_medicare_surtax_fixed_divisor highEarnerMedicare weeklyPeriod).2.2.2 (by decide)

/-- C4 counterexample: an employee whose fixed pre-tax deduction (200)
exceeds the biweekly gross pay (100) has taxable income -100, and the code
then withholds *negative* Social Security (-6.2) and Medicare — refuting
the claim that all four components are non-negative for such records. -/
theorem C4_counterexample :
    (calculateEmployeePayroll overDeducted biweeklyPeriod).taxableIncome < 0 ∧
      (calculateEmployeePayroll overDeducted biweeklyPeriod).socialSecurityTax < 0 ∧
      (calculateEmployeePayroll overDeducted biweeklyPeriod).medicareTax < 0 := by decide

/-- C4 (amended): federal and state income taxes are non-negative for
every record; Social Security and Medicare are non-negative whenever the
per-period taxable income is non-negative (when pre-tax deductions exceed
gross pay they both go negative, as the counterexample shows). -/
theorem C4_tax_components_nonneg (e : Employee) (p : PayPeriod) :
    (0 ≤ (calculateEmployeePayroll e p).federalTax ∧
      0 ≤ (calculateEmployeePayroll e p).stateTax) ∧
    (0 ≤ (calculateEmployeePayroll e p).taxableIncome →
      0 ≤ (calculateEmployeePayroll e p).socialSecurityTax ∧
        0 ≤ (calculateEmployeePayroll e p).medicareTax) := by
  constructor
  · constructor
    · show 0 ≤ federalTaxOf e p
      unfold federalTaxOf calculateProgressiveTax
      apply div_nonneg _ (le_of_lt (periodsPerYear_pos p.periodType))
      exact taxLoop_nonneg federalBrackets 0 _
        (wfB_program federalBrackets (by simp [programBracketTables]))
    · show 0 ≤ stateTaxOf e p
      unfold stateTaxOf calculateProgressiveTax
      apply div_nonneg _ (le_of_lt (periodsPerYear_pos p.periodType))
      exact taxLoop_nonneg (stateBracketsFor e.state) 0 _
        (wfB_program _ (stateBracketsFor_mem_program e.state))
  · intro h
    have h2 : (0:ℚ) ≤ taxableIncomeOf e p := h
    constructor
    · show 0 ≤ socialSecurityTaxOf e p
      unfold socialSecurityTaxOf
      exact le_min (mul_nonneg h2 (by norm_num [ssRate])) (by norm_num [ssRate])
    · show 0 ≤ medicareTaxOf e p
      unfold medicareTaxOf
      exact add_nonneg (mul_nonneg h2 (by norm_num [medicareRate]))
        (medicareSurtaxOf_nonneg e p)

/-- C4 witness: the conditional half applied to a concrete employee with
non-negative taxable income. -/
theorem C4_tax_components_nonneg_witness :
    0 ≤ (calculateEmployeePayroll salaried78k biweeklyPeriod).socialSecurityTax ∧
      0 ≤ (calculateEmployeePayroll salaried78k biweeklyPeriod).medicareTax :=
  (C4_tax_components_nonneg salaried78k biweeklyPeriod).2 (by decide)

/-- C5: gross pay is `annual_salary / periods_per_year` for salaried
employees (periods per year = 52/26/24/12 for weekly/biweekly/semimonthly/
monthly, any unrecognized period type defaulting to 26) and
`rate * regular_hours + rate * 1.5 * overtime_hours` for hourly ones; in
particular 78000/yr biweekly yields exactly 3000 and the 20/hr, 80 + 5
overtime case yields exactly 1750. -/
theorem C5_gross_pay :
    (∀ (e : Employee) (p : PayPeriod),
      (calculateEmployeePayroll e p).grossPay =
        if pyLower e.payType = "salary" then e.salary / periodsPerYear p.periodType
        else e.salary * e.hoursWorked + e.salary * (3/2) * e.overtimeHours) ∧
    periodsPerYear "weekly" = 52 ∧ periodsPerYear "biweekly" = 26 ∧
    periodsPerYear "semimonthly" = 24 ∧ periodsPerYear "monthly" = 12 ∧
    (calculateEmployeePayroll salaried78k biweeklyPeriod).grossPay = 3000 ∧
    (calculateEmployeePayroll hourly20 biweeklyPeriod).grossPay = 1750 ∧
    (∀ pt : String, pt ≠ "weekly" → pt ≠ "biweekly" → pt ≠ "semimonthly" →
      pt ≠ "monthly" → periodsPerYear pt = 26) := by
  refine ⟨fun _ _ => rfl, rfl, rfl, rfl, rfl, by decide, by decide, ?_⟩
  intro pt h1 h2 h3 h4
  unfold periodsPerYear
  rw [if_neg h1, if_neg h2, if_neg h3, if_neg h4]

/-- C5 witness: the unrecognized-period-type clause applied at a concrete
period type, falling back to the biweekly divisor. -/
theorem C5_gross_pay_witness : periodsPerYear "quarterly" = 26 :=
  C5_gross_pay.2.2.2.2.2.2.2 "quarterly" (by decide) (by decide) (by decide)
    (by decide)

/-- C6: the pay stub conserves money exactly (in rational arithmetic):
`pre_tax_deductions + post_tax_deductions + net_pay
  = gross_pay - total_taxes`. -/
theorem C6_money_conservation (e : Employee) (p : PayPeriod) :
    (calculateEmployeePayroll e p).preTaxDeductions +
        (calculateEmployeePayroll e p).postTaxDeductions +
        (calculateEmployeePayroll e p).netPay =
      (calculateEmployeePayroll e p).grossPay -
        (calculateEmployeePayroll e p).totalTaxes := by
  show (processDeductions (grossPayOf e p) e.deductions).preTaxTotal +
      (processDeductions (grossPayOf e p) e.deductions).postTaxTotal +
      netPayOf e p
    = grossPayOf e p - totalTaxesOf e p
  unfold netPayOf
  ring

/-- C7: on each of the program's six static bracket tables, the
progressive tax with zero allowances is monotonically non-decreasing:
`0 ≤ a < b` implies `progressive_tax(a) ≤ progressive_tax(b)`. -/
theorem C7_progressive_tax_monotone :
    ∀ bs ∈ programBracketTables, ∀ a b : ℚ, 0 ≤ a → a < b →
      calculateProgressiveTax a bs 0 ≤ calculateProgressiveTax b bs 0 := by
  intro bs hbs a b _ hab
  unfold calculateProgressiveTax
  have h1 : max 0 (a - ((0:ℕ):ℚ) * 4050) ≤ max 0 (b - ((0:ℕ):ℚ) * 4050) :=
    max_le_max (le_refl 0) (by linarith)
  exact taxLoop_mono bs 0 _ _ (wfB_program bs hbs) h1

/-- C7 witness: monotonicity instantiated on the federal table at the
concrete pair 0 < 1. -/
theorem C7_progressive_tax_monotone_witness :
    calculateProgressiveTax 0 federalBrackets 0 ≤
      calculateProgressiveTax 1 federalBrackets 0 :=
  C7_progressive_tax_monotone federalBrackets (by simp [programBracketTables])
    0 1 (by norm_num) (by norm_num)

/-- C8: for every income, allowance count, and bracket table with
ascending upper bounds (unbounded bracket last), the early-exit bracket
walk computes the same total as the variant that always scans the whole
table, because brackets entirely above the taxable income contribute
zero. -/
theorem C8_early_exit_equivalence :
    ∀ (income : ℚ) (allowances : ℕ) (bs : List Bracket),
      ascB 0 bs = true →
      calculateProgressiveTax income bs allowances =
        calculateProgressiveTaxFullScan income bs allowances := by
  intro income allowances bs hasc
  unfold calculateProgressiveTax calculateProgressiveTaxFullScan
  exact taxLoop_eq_fullTaxLoop bs 0 _ hasc

/-- C8 witness: the equivalence instantiated on the federal table at a
concrete income and allowance count. -/
theorem C8_early_exit_equivalence_witness :
    calculateProgressiveTax 123456 federalBrackets 2 =
      calculateProgressiveTaxFullScan 123456 federalBrackets 2 :=
  C8_early_exit_equivalence 123456 2 federalBrackets (by decide)

/-- C9: a deductions-map entry whose kind is absent from the static
deduction catalog is silently skipped: the pay stub is identical to the
one computed from the same record with that entry removed. -/
theorem C9_unknown_deduction_noop
    (e : Employee) (p : PayPeriod) (k : String) (v : ℚ)
    (l1 l2 : List (String × ℚ))
    (hk : deductionTypes k = none) (hd : e.deductions = l1 ++ (k, v) :: l2) :
    calculateEmployeePayroll e p =
      calculateEmployeePayroll { e with deductions := l1 ++ l2 } p := by
  obtain ⟨i, n, sal, pt, hw, ot, st, ded, alw⟩ := e
  simp only at hd
  subst hd
  exact calcEmp_deductions_skip i n sal pt hw ot st alw k v l1 l2 p hk

/-- C9 witness: the concrete record carrying an unknown
`pet_insurance` entry yields the same stub as the record without it. -/
theorem C9_unknown_deduction_noop_witness :
    calculateEmployeePayroll unknownDeductionEmp biweeklyPeriod =
      calculateEmployeePayroll
        { unknownDeductionEmp with deductions := [("401k", 5/100)] ++ [] }
        biweeklyPeriod :=
  C9_unknown_deduction_noop unknownDeductionEmp biweeklyPeriod
    "pet_insurance" 50 [("401k", 5/100)] [] (by decide) rfl

/-- C10: `calculate_employer_taxes` reads an `employee_state` key the pay
stubs never contain, so every employee gets the DEFAULT SUI rate (0.03):
the SUI total over stubs produced by `_calculate_employee_payroll` is the
sum of `min(taxable_income, 7000/26) * sui_default` per employee, and two
rosters differing only in their employees' state field yield identical SUI
and FUTA employer-tax totals. -/
theorem C10_employer_sui_ignores_state :
    ∀ (p : PayPeriod) (es : List Employee) (f : Employee → String)
      (r1 r2 : PayrollRunResult),
      r1.employeePayments = es.map (fun e => calculateEmployeePayroll e p) →
      r2.employeePayments =
        (es.map (fun e => { e with state := f e })).map
          (fun e => calculateEmployeePayroll e p) →
      (calculateEmployerTaxes r1).sui =
        (r1.employeePayments.map
          (fun s => min s.taxableIncome (7000 / 26) * suiRateFor "DEFAULT")).sum ∧
      (calculateEmployerTaxes r1).sui = (calculateEmployerTaxes r2).sui ∧
      (calculateEmployerTaxes r1).futa = (calculateEmployerTaxes r2).futa := by
  intro p es f r1 r2 h1 h2
  have hsui : ∀ r : PayrollRunResult, (calculateEmployerTaxes r).sui =
      (r.employeePayments.map
        (fun s => min s.taxableIncome (7000 / 26) * suiRateFor "DEFAULT")).sum := by
    intro r
    show (r.employeePayments.foldl employerTaxesStep ⟨0, 0, 0, 0, 0⟩).sui = _
    rw [employerFold_sui]
    exact zero_add _
  have hfuta : ∀ r : PayrollRunResult, (calculateEmployerTaxes r).futa =
      (r.employeePayments.map
        (fun s => min s.taxableIncome (7000 / 26) * futaRate)).sum := by
    intro r
    show (r.employeePayments.foldl employerTaxesStep ⟨0, 0, 0, 0, 0⟩).futa = _
    rw [employerFold_futa]
    exact zero_add _
  refine ⟨hsui r1, ?_, ?_⟩
  · rw [hsui r1, hsui r2, h1, h2, List.map_map, List.map_map, List.map_map]
    rfl
  · rw [hfuta r1, hfuta r2, h1, h2, List.map_map, List.map_map, List.map_map]
    rfl

/-- C10 witness: the theorem applied to a concrete two-employee roster and
the same roster with every state replaced by TX. -/
theorem C10_employer_sui_ignores_state_witness :
    (calculateEmployerTaxes ⟨biweeklyPeriod, 0, 0, 0, 0,
        [salaried78k, hourly20].map
          (fun e => calculateEmployeePayroll e biweeklyPeriod)⟩).sui =
      (([salaried78k, hourly20].map
          (fun e => calculateEmployeePayroll e biweeklyPeriod)).map
        (fun s => min s.taxableIncome (7000 / 26) * suiRateFor "DEFAULT")).sum ∧
    (calculateEmployerTaxes ⟨biweeklyPeriod, 0, 0, 0, 0,
        [salaried78k, hourly20].map
          (fun e => calculateEmployeePayroll e biweeklyPeriod)⟩).sui =
      (calculateEmployerTaxes ⟨biweeklyPeriod, 0, 0, 0, 0,
        ([salaried78k, hourly20].map (fun e => { e with state := "TX" })).map
          (fun e => calculateEmployeePayroll e biweeklyPeriod)⟩).sui ∧
    (calculateEmployerTaxes ⟨biweeklyPeriod, 0, 0, 0, 0,
        [salaried78k, hourly20].map
          (fun e => calculateEmployeePayroll e biweeklyPeriod)⟩).futa =
      (calculateEmployerTaxes ⟨biweeklyPeriod, 0, 0, 0, 0,
        ([salaried78k, hourly20].map (fun e => { e with state := "TX" })).map
          (fun e => calculateEmployeePayroll e biweeklyPeriod)⟩).futa :=
  C10_employer_sui_ignores_state biweeklyPeriod [salaried78k, hourly20]
    (fun _ => "TX") _ _ rfl rfl

end Payroll
